import Mathlib

/-!
monoid_traits_test: compile-time trait detection for monoid-like operators

The repository consists of `detail.hpp` (two capability probes, `has_identity`
and `has_identity_`) and `src/monoid_traits.cpp` (two operators, two trait
adapters selected by partial specialization, and `main`).

Everything of interest happens during template instantiation, so the embedding
represents C++ *types* as data (`CType`), name lookup `U::name` as a function
(`lookup`), overload resolution between a well-formedness-gated overload and a
`(...)` fallback as a Boolean function of the well-formedness of the gating
expression, and the choice of a partial specialization as a function that
returns which specialization is used.  The undefined primary template (a
compile-time error) is the result `none`.
-/

namespace MonoidTraits

/-! ## Types and declarations -/

/-- Arithmetic operand types.  `int` is 32 bits wide, `long` 64 bits. -/
inductive Arith
  | int
  | long
  deriving DecidableEq, Repr

/-- Fundamental types: `void` and the arithmetic types. -/
inductive Basic
  | void
  | arith (a : Arith)
  deriving DecidableEq, Repr

/-- Declared return type of a member function of a user class: the first
template parameter of the function (as in `template <typename T> static T f()`)
or a fixed fundamental type. -/
inductive RetSpec
  | tparam
  | fixed (b : Basic)
  deriving DecidableEq, Repr

/-- What a user class declares under one member name.

* `absent`: no member of that name;
* `alias b`: `using name = b;`
* `fn isStatic tparams params ret lit`: a member function (a member function
  template with `tparams` type parameters when `tparams > 0`), `static` or not,
  taking `params` arguments (no default arguments, no default template
  arguments), declared to return `ret`, whose body is `return R(lit);` with `R`
  the return type. -/
inductive MemberDecl
  | absent
  | alias (target : Basic)
  | fn (isStatic : Bool) (tparams params : Nat) (ret : RetSpec) (lit : Int)
  deriving DecidableEq, Repr

/-- A class other than the ones the repository names, described by what it
declares under the two member names the probes look at. -/
structure ClassDecl where
  name : String
  identity : MemberDecl
  type : MemberDecl
  deriving DecidableEq, Repr

/-- The types that occur as template arguments.

* `basic b`: a fundamental type;
* `std_plus a`: `std::plus<a>` (`plus_stl<a>`); `std_plus (basic void)` is
  `std::plus<void>`, the repository's `plus_nice`;
* `plus_monoid a`: the repository's `plus_monoid<a>` (monoid_traits.cpp:14-27);
  the argument is arithmetic because `plus_monoid<void>` cannot be
  instantiated (`const void&` in `operator()`);
* `plus_`: the repository's `struct plus_` (monoid_traits.cpp:101-113);
* `class_ d`: any other class. -/
inductive CType
  | basic (b : Basic)
  | std_plus (arg : CType)
  | plus_monoid (arg : Arith)
  | plus_
  | class_ (decl : ClassDecl)
  deriving DecidableEq, Repr

/-- The type `void`. -/
abbrev CType.void : CType := .basic .void

/-- The type `int`. -/
abbrev CType.int : CType := .basic (.arith .int)

/-- The type `long`. -/
abbrev CType.long : CType := .basic (.arith .long)

/-- The type `std::plus<void>`, named `plus_nice` at monoid_traits.cpp:90. -/
abbrev plus_nice : CType := .std_plus .void

/-- The two member names the probes and adapters look up. -/
inductive MemberName
  | identity
  | type
  deriving DecidableEq, Repr

/-- Return type of a member function after lookup. -/
inductive Ret
  | tparam
  | fixed (t : CType)
  deriving DecidableEq, Repr

/-- What a qualified name `U::name` denotes. -/
inductive Entity
  | absent
  | alias (target : CType)
  | fn (isStatic : Bool) (tparams params : Nat) (ret : Ret) (lit : Int)
  deriving DecidableEq, Repr

/-- The entity a user class's declaration introduces. -/
def MemberDecl.toEntity : MemberDecl → Entity
  | .absent => .absent
  | .alias b => .alias (.basic b)
  | .fn s tp p .tparam lit => .fn s tp p .tparam lit
  | .fn s tp p (.fixed b) lit => .fn s tp p (.fixed (.basic b)) lit

/-- Qualified name lookup `U::name`.

* a fundamental type has no members;
* `std::plus<T>` declares neither `identity` nor `type`;
* `plus_monoid<T>` declares `static constexpr T identity() { return T(0); }`
  and `using type = T;` (monoid_traits.cpp:22-26);
* `plus_` declares `template <typename T> static constexpr T identity()
  { return T(0); }` (monoid_traits.cpp:107-110); its `using type` line is
  commented out (monoid_traits.cpp:112). -/
def lookup : CType → MemberName → Entity
  | .basic _, _ => .absent
  | .std_plus _, _ => .absent
  | .plus_monoid a, .identity => .fn true 0 0 (.fixed (.basic (.arith a))) 0
  | .plus_monoid a, .type => .alias (.basic (.arith a))
  | .plus_, .identity => .fn true 1 0 .tparam 0
  | .plus_, .type => .absent
  | .class_ d, .identity => d.identity.toEntity
  | .class_ d, .type => d.type.toEntity

/-! ## Values -/

/-- Values of the fundamental types.  Integers are kept as mathematical
integers inside the range of their type. -/
inductive Value
  | void
  | int (v : Int)
  | long (v : Int)
  deriving DecidableEq, Repr

/-- Width in bits of an arithmetic type. -/
def Arith.bits : Arith → Nat
  | .int => 32
  | .long => 64

/-- Reduction of an integer into the range of a signed two's-complement type
of the given width. -/
def wrap (bits : Nat) (z : Int) : Int :=
  (z + 2 ^ (bits - 1)) % 2 ^ bits - 2 ^ (bits - 1)

/-- The range of a signed type of the given width. -/
def in_range (bits : Nat) (z : Int) : Prop :=
  -(2 ^ (bits - 1)) ≤ z ∧ z < 2 ^ (bits - 1)

instance (bits : Nat) (z : Int) : Decidable (in_range bits z) := by
  unfold in_range; infer_instance

/-- The functional cast `T(lit)` of an integer literal: defined for the
fundamental types (`void(lit)` discards the value), ill-formed for the class
types of this model, none of which has a constructor taking an integer. -/
def construct : CType → Int → Option Value
  | .basic .void, _ => some .void
  | .basic (.arith .int), lit => some (.int (wrap 32 lit))
  | .basic (.arith .long), lit => some (.long (wrap 64 lit))
  | _, _ => none

/-- Conversion of the operand of a `return` statement to the function's return
type.  A void expression may be returned from a function returning `void`
only; integers convert between the integer types. -/
def convert : Value → CType → Option Value
  | .void, .basic .void => some .void
  | .int v, .basic (.arith .int) => some (.int v)
  | .int v, .basic (.arith .long) => some (.long v)
  | .long v, .basic (.arith .int) => some (.int (wrap 32 v))
  | .long v, .basic (.arith .long) => some (.long v)
  | _, _ => none

/-- Instantiation of a declared return type with the explicit template
arguments. -/
def Ret.inst : Ret → List CType → Option CType
  | .tparam, t :: _ => some t
  | .tparam, [] => none
  | .fixed t, _ => some t

/-- Well-formedness of a call `U::name<targs...>()` (or `U::name()` when
`targs` is empty) with no object and no arguments.

The name must denote a member function that is `static` (a non-static member
function cannot be called without an object), takes no arguments, and whose
template parameters are exactly the explicitly given ones: nothing can be
deduced from an empty argument list, and a non-template cannot be given
template arguments.  A name denoting a type is not a callee: the name is
dependent and not preceded by `typename`, so it is taken to be a non-type. -/
def call_wf (U : CType) (name : MemberName) (targs : List CType) : Bool :=
  match lookup U name with
  | .fn isStatic tparams params _ _ =>
      isStatic && tparams == targs.length && params == 0
  | _ => false

/-- The value of a well-formed call `U::name<targs...>()`: the body
`return R(lit);` evaluated at the instantiated return type `R`. -/
def call_value (U : CType) (name : MemberName) (targs : List CType) :
    Option Value :=
  if call_wf U name targs then
    match lookup U name with
    | .fn _ _ _ ret lit => (ret.inst targs).bind fun R => construct R lit
    | _ => none
  else none

/-! ## The probes (detail.hpp) -/

/-- Well-formedness of the expression `std::declval<U::type>()`, the gate of
the preferred `test_type` overload (detail.hpp:18).

The template argument `U::type` is a dependent qualified name that is not
preceded by `typename`, and a template argument is not a context in which a
type is assumed; it is therefore parsed as an expression.

* If `U` has no member `type`, the name denotes nothing.
* If `U::type` is a type alias, instantiation yields a type where a non-type
  was parsed: substitution fails.
* If `U::type` is a non-type, it is a non-type argument for `std::declval`,
  whose only template parameter is a type: no `declval` is viable.

The expression is well-formed in no case. -/
def declval_type_wf (U : CType) : Bool :=
  match lookup U .type with
  | .absent => false
  | .alias _ => false
  | .fn _ _ _ _ _ => false

namespace has_identity

/-- The call `test_identity<U>(int())` (detail.hpp:9-14, 23-26): the overload
taking `int` is viable only when `U::identity()` is well-formed and is then
preferred over the `(...)` overload. -/
def test_identity (U : CType) : Bool :=
  if call_wf U .identity [] then true else false

/-- The call `test_type<U>(int())` (detail.hpp:16-21, 28-31): the overload
taking `int` is viable only when `std::declval<U::type>()` is well-formed. -/
def test_type (U : CType) : Bool :=
  if declval_type_wf U then true else false

/-- The member `has_identity<T>::value` (detail.hpp:33). -/
def value (T : CType) : Bool :=
  test_identity T && test_type T

end has_identity

/-- The variable template `has_identity_v<T>` (detail.hpp:38-39). -/
def has_identity_v (T : CType) : Bool :=
  has_identity.value T

namespace has_identity_

/-- The call `test_identity<U, F>(int())` (detail.hpp:45-55): the overload
taking `int` is viable only when `U::template identity<F>()` is well-formed. -/
def test_identity (U F : CType) : Bool :=
  if call_wf U .identity [F] then true else false

/-- The member `has_identity_<Fn, T>::value` (detail.hpp:57). -/
def value (Fn T : CType) : Bool :=
  test_identity Fn T

end has_identity_

/-- The variable template `has_identity_v_<Fn, T>` (detail.hpp:62-63). -/
def has_identity_v_ (Fn T : CType) : Bool :=
  has_identity_.value Fn T

/-- A template-id `has_identity_v_<args...>`.  The variable template has two
type parameters and no default arguments, so the template-id names a
specialization only when it supplies exactly two arguments.  With any other
number of arguments it has no value; where that happens while the arguments of
a partial specialization are substituted, the specialization is not a
candidate.  (An implementation that checks the argument count already when it
reads the partial specialization rejects the file as a whole; the embedding
follows the implementations that check at substitution, under which the
program of `main` exists.) -/
def has_identity_v__template_id : List CType → Option Bool
  | [Fn, T] => some (has_identity_v_ Fn T)
  | _ => none

/-- The alias `std::enable_if_t<B>`: `void` when `B` is `true`, no type
otherwise (also when `B` itself has no value). -/
def enable_if_t : Option Bool → Option CType
  | some true => some .void
  | _ => none

/-! ## The adapters (monoid_traits.cpp) -/

/-- The members an adapter specialization exposes: the alias `type`, and the
result of calling `identity()` (`none` when the body of `identity()` is
ill-formed for the types at hand). -/
structure Traits where
  type : CType
  identity : Option Value
  deriving DecidableEq, Repr

/-- Which definition of an adapter a use of it is instantiated from. -/
inductive Selected
  | primary
  | probe_gated
  | hand_written
  | ambiguous
  deriving DecidableEq, Repr

/-- Choice among the primary template and two partial specializations, neither
of which is more specialized than the other. -/
def choose (gated hand : Bool) : Selected :=
  match gated, hand with
  | true, true => .ambiguous
  | true, false => .probe_gated
  | false, true => .hand_written
  | false, false => .primary

namespace monoid_traits

/-- Whether `monoid_traits<T, std::enable_if_t<has_identity_v_<T>>>`
(monoid_traits.cpp:48-49) matches `monoid_traits<T>`, that is
`monoid_traits<T, void>`: the second argument must come out as `void`.  The
source writes the two-parameter `has_identity_v_` here, with one argument. -/
def gated_matches (T : CType) : Bool :=
  enable_if_t (has_identity_v__template_id [T]) == some .void

/-- Whether `monoid_traits<std::plus<T>>` (monoid_traits.cpp:61-62) matches. -/
def hand_written_matches : CType → Bool
  | .std_plus _ => true
  | _ => false

/-- The definition selected for `monoid_traits<T>`. -/
def select (T : CType) : Selected :=
  choose (gated_matches T) (hand_written_matches T)

/-- Body of the probe-gated specialization (monoid_traits.cpp:50-56):
`using type = typename T::type;` and `identity()` returning `T::identity()`. -/
def probe_gated (T : CType) : Option Traits :=
  match lookup T .type with
  | .alias t =>
      some { type := t
             identity := (call_value T .identity []).bind fun v => convert v t }
  | _ => none

/-- Body of the specialization for `std::plus<T>` (monoid_traits.cpp:63-69):
`using type = T;` and `identity()` returning `type(0)`. -/
def hand_written : CType → Option Traits
  | .std_plus T => some { type := T, identity := construct T 0 }
  | _ => none

end monoid_traits

/-- The adapter `monoid_traits<T>` (monoid_traits.cpp:42-69).  The primary
template is declared and never defined, so using it is an error (`none`), as
is an ambiguous choice. -/
def monoid_traits (T : CType) : Option Traits :=
  match monoid_traits.select T with
  | .probe_gated => monoid_traits.probe_gated T
  | .hand_written => monoid_traits.hand_written T
  | .primary => none
  | .ambiguous => none

namespace monoid_traits_

/-- Whether `monoid_traits_<Fn, T, std::enable_if_t<has_identity_v_<Fn, T>>>`
(monoid_traits.cpp:131-132) matches `monoid_traits_<Fn, T>`. -/
def gated_matches (Fn T : CType) : Bool :=
  enable_if_t (has_identity_v__template_id [Fn, T]) == some .void

/-- Whether `monoid_traits_<std::plus<T>, T>` (monoid_traits.cpp:145-146)
matches: the operator must be `std::plus` of the operand type itself. -/
def hand_written_matches (Fn T : CType) : Bool :=
  decide (Fn = .std_plus T)

/-- The definition selected for `monoid_traits_<Fn, T>`. -/
def select (Fn T : CType) : Selected :=
  choose (gated_matches Fn T) (hand_written_matches Fn T)

/-- Body of the probe-gated specialization (monoid_traits.cpp:133-141):
`using type = T;` and `identity()` returning `Fn::template identity<T>()`. -/
def probe_gated (Fn T : CType) : Traits :=
  { type := T
    identity := (call_value Fn .identity [T]).bind fun v => convert v T }

/-- Body of the specialization for `std::plus<T>, T`
(monoid_traits.cpp:147-154): `using type = T;` and `identity()` returning
`T(0)`. -/
def hand_written (T : CType) : Traits :=
  { type := T, identity := construct T 0 }

end monoid_traits_

/-- The adapter `monoid_traits_<Fn, T>` (monoid_traits.cpp:126-154). -/
def monoid_traits_ (Fn T : CType) : Option Traits :=
  match monoid_traits_.select Fn T with
  | .probe_gated => some (monoid_traits_.probe_gated Fn T)
  | .hand_written => some (monoid_traits_.hand_written T)
  | .primary => none
  | .ambiguous => none

/-! ## Operators and the entry point -/

/-- Addition of two values of an arithmetic type, reduced into its range. -/
def Arith.add (T : Arith) (a b : Int) : Int :=
  wrap T.bits (a + b)

/-- The call operator `plus_monoid<T>::operator()` (monoid_traits.cpp:16-18):
`return a + b;`. -/
def plus_monoid.call (T : Arith) (a b : Int) : Int :=
  T.add a b

/-- The call operator of the standard library's `std::plus<T>`, which returns
`x + y`. -/
def std_plus.call (T : Arith) (x y : Int) : Int :=
  T.add x y

/-- Decimal text of an integer, as `operator<<` writes an `int`. -/
def decimal (z : Int) : String :=
  if z < 0 then "-" ++ Nat.repr z.natAbs else Nat.repr z.natAbs

/-- Initialization `int x = v;` from the result of an `identity()` call. -/
def to_int (v : Option Value) : Option Int :=
  match v.bind fun w => convert w .int with
  | some (.int z) => some z
  | _ => none

/-- The entry point (monoid_traits.cpp:156-166): the text written to standard
output and the exit status.  `none` stands for a program that does not build
because an adapter does not resolve. -/
def main (_argc : Int) (_argv : List String) : Option (String × Int) :=
  match monoid_traits (.std_plus .int), monoid_traits_ .plus_ .int with
  | some tight, some loose =>
      match to_int tight.identity, to_int loose.identity with
      | some tight_identity, some loose_identity =>
          some (decimal tight_identity ++ " " ++ decimal loose_identity ++ "\n", 0)
      | _, _ => none
  | _, _ => none

/-! ## The specification's wording of the probes -/

/-- Spec 4.1 (a): the type declares a static, zero-argument member `identity`
that can be invoked to produce a value. -/
def declares_static_identity (T : CType) : Bool :=
  match lookup T .identity with
  | .fn isStatic tparams params _ _ => isStatic && tparams == 0 && params == 0
  | _ => false

/-- Spec 4.1 (b): the type declares a nested type alias `type`. -/
def declares_type_alias (T : CType) : Bool :=
  match lookup T .type with
  | .alias _ => true
  | _ => false

/-- Spec 4.2: the operator declares a template-parameterized, zero-argument
static member `identity` that, instantiated with the operand type, is
invocable to produce a value of that type.  The member is a static function
template without parameters, the operand type is its one template argument,
and its return type at that argument is the operand type. -/
def declares_identity_producing (Fn T : CType) : Bool :=
  match lookup Fn .identity with
  | .fn isStatic tparams params ret _ =>
      isStatic && tparams == 1 && params == 0 && (ret.inst [T] == some T)
  | _ => false

/-- Spec 4.2 without its last clause: the operator declares a
template-parameterized, zero-argument static member `identity` that,
instantiated with the operand type, is invocable. -/
def declares_identity_invocable (Fn : CType) : Bool :=
  match lookup Fn .identity with
  | .fn isStatic tparams params _ _ => isStatic && tparams == 1 && params == 0
  | _ => false

/-- The class
`struct void_identity { template <typename T> static void identity() {} };`. -/
def void_identity : CType :=
  .class_ { name := "void_identity"
            identity := .fn true 1 0 (.fixed .void) 0
            type := .absent }

/-! ## Programs that specialize `std::plus` for their own classes

A program that uses the adapters may add explicit specializations
`template <> struct std::plus<C>` for classes `C` of its own, and such a
specialization may declare members.  The definitions above are the templates
in the repository's own program, which adds none; the definitions below are
the same templates of `detail.hpp` and `monoid_traits.cpp` in a program that
does.  Only name lookup in `std::plus<C>` differs. -/

/-- What an explicit specialization of `std::plus` declares under the two
member names. -/
structure PlusMembers where
  identity : MemberDecl
  type : MemberDecl
  deriving DecidableEq, Repr

/-- The explicit specializations of `std::plus` a program adds, by the class
they are written for. -/
abbrev Specializations := ClassDecl → Option PlusMembers

/-- The repository's own program adds no specialization of `std::plus`. -/
def no_specializations : Specializations :=
  fun _ => none

/-- The class `struct my_t {};`. -/
def my_t : ClassDecl :=
  { name := "my_t", identity := .absent, type := .absent }

/-- A program that defines `my_t` and the specialization
`template <> struct std::plus<my_t>` declaring
`template <typename T> static T identity()`. -/
def plus_my_t : Specializations :=
  fun C =>
    if C = my_t then
      some { identity := .fn true 1 0 .tparam 0, type := .absent }
    else none

namespace InProgram

/-- Qualified name lookup `U::name` in a program: in `std::plus<C>` for a
class `C` the program has specialized it for, the members of that
specialization; everywhere else as in the repository's own program. -/
def lookup (p : Specializations) : CType → MemberName → Entity
  | .std_plus (.class_ C), name =>
      match p C, name with
      | some m, .identity => m.identity.toEntity
      | some m, .type => m.type.toEntity
      | none, _ => .absent
  | U, name => MonoidTraits.lookup U name

/-- Well-formedness of a call `U::name<targs...>()` with no object and no
arguments: a static member function without parameters whose template
parameters are exactly the explicitly given ones. -/
def call_wf (p : Specializations) (U : CType) (name : MemberName)
    (targs : List CType) : Bool :=
  match lookup p U name with
  | .fn isStatic tparams params _ _ =>
      isStatic && tparams == targs.length && params == 0
  | _ => false

/-- The value of a well-formed call `U::name<targs...>()`. -/
def call_value (p : Specializations) (U : CType) (name : MemberName)
    (targs : List CType) : Option Value :=
  if call_wf p U name targs then
    match lookup p U name with
    | .fn _ _ _ ret lit => (ret.inst targs).bind fun R => construct R lit
    | _ => none
  else none

namespace has_identity_

/-- The call `test_identity<U, F>(int())` (detail.hpp:45-55). -/
def test_identity (p : Specializations) (U F : CType) : Bool :=
  if call_wf p U .identity [F] then true else false

/-- The member `has_identity_<Fn, T>::value` (detail.hpp:57). -/
def value (p : Specializations) (Fn T : CType) : Bool :=
  test_identity p Fn T

end has_identity_

/-- The variable template `has_identity_v_<Fn, T>` (detail.hpp:62-63). -/
def has_identity_v_ (p : Specializations) (Fn T : CType) : Bool :=
  has_identity_.value p Fn T

/-- A template-id `has_identity_v_<args...>`: it has a value only with
exactly two arguments. -/
def has_identity_v__template_id (p : Specializations) :
    List CType → Option Bool
  | [Fn, T] => some (has_identity_v_ p Fn T)
  | _ => none

namespace monoid_traits_

/-- Whether `monoid_traits_<Fn, T, std::enable_if_t<has_identity_v_<Fn, T>>>`
(monoid_traits.cpp:131-132) matches `monoid_traits_<Fn, T>`. -/
def gated_matches (p : Specializations) (Fn T : CType) : Bool :=
  enable_if_t (has_identity_v__template_id p [Fn, T]) == some .void

/-- Whether `monoid_traits_<std::plus<T>, T>` (monoid_traits.cpp:145-146)
matches: the operator must be `std::plus` of the operand type itself,
whichever definition of `std::plus<T>` the program has. -/
def hand_written_matches (Fn T : CType) : Bool :=
  decide (Fn = .std_plus T)

/-- The definition selected for `monoid_traits_<Fn, T>`. -/
def select (p : Specializations) (Fn T : CType) : Selected :=
  choose (gated_matches p Fn T) (hand_written_matches Fn T)

/-- Body of the probe-gated specialization (monoid_traits.cpp:133-141). -/
def probe_gated (p : Specializations) (Fn T : CType) : Traits :=
  { type := T
    identity := (call_value p Fn .identity [T]).bind fun v => convert v T }

/-- Body of the specialization for `std::plus<T>, T`
(monoid_traits.cpp:147-154). -/
def hand_written (T : CType) : Traits :=
  { type := T, identity := construct T 0 }

end monoid_traits_

/-- The adapter `monoid_traits_<Fn, T>` (monoid_traits.cpp:126-154) in a
program: the undefined primary template and an ambiguous choice between the
two partial specializations are both errors (`none`). -/
def monoid_traits_ (p : Specializations) (Fn T : CType) : Option Traits :=
  match monoid_traits_.select p Fn T with
  | .probe_gated => some (monoid_traits_.probe_gated p Fn T)
  | .hand_written => some (monoid_traits_.hand_written T)
  | .primary => none
  | .ambiguous => none

end InProgram

/-! ## Lemmas -/

theorem ite_true_false (b : Bool) : (if b then true else false) = b := by
  cases b <;> rfl

theorem test_type_false (U : CType) : has_identity.test_type U = false := by
  unfold has_identity.test_type declval_type_wf
  cases lookup U .type <;> rfl

theorem has_identity_v_false (T : CType) : has_identity_v T = false := by
  simp [has_identity_v, has_identity.value, test_type_false]

theorem monoid_traits_gate_closed (T : CType) :
    monoid_traits.gated_matches T = false := by
  rfl

theorem monoid_traits__gate (Fn T : CType) :
    monoid_traits_.gated_matches Fn T = has_identity_v_ Fn T := by
  simp only [monoid_traits_.gated_matches, has_identity_v__template_id]
  cases has_identity_v_ Fn T <;> rfl

theorem std_plus_no_templated_identity (A T : CType) :
    has_identity_v_ (.std_plus A) T = false := by
  simp [has_identity_v_, has_identity_.value, has_identity_.test_identity,
    call_wf, lookup]

theorem monoid_traits__never_both (Fn T : CType) :
    ¬ (monoid_traits_.gated_matches Fn T = true ∧
       monoid_traits_.hand_written_matches Fn T = true) := by
  rintro ⟨hg, hh⟩
  rw [monoid_traits__gate] at hg
  simp only [monoid_traits_.hand_written_matches, decide_eq_true_eq] at hh
  subst hh
  rw [std_plus_no_templated_identity] at hg
  exact Bool.false_ne_true hg

theorem lookup_no_specializations (U : CType) (name : MemberName) :
    InProgram.lookup no_specializations U name = lookup U name := by
  cases U with
  | std_plus A => cases A <;> cases name <;> rfl
  | _ => rfl

theorem call_wf_no_specializations (U : CType) (name : MemberName)
    (targs : List CType) :
    InProgram.call_wf no_specializations U name targs = call_wf U name targs := by
  unfold InProgram.call_wf call_wf
  rw [lookup_no_specializations]

theorem in_program_gate (p : Specializations) (Fn T : CType) :
    InProgram.monoid_traits_.gated_matches p Fn T
      = InProgram.has_identity_v_ p Fn T := by
  simp only [InProgram.monoid_traits_.gated_matches,
    InProgram.has_identity_v__template_id]
  cases InProgram.has_identity_v_ p Fn T <;> rfl

theorem in_program_select_eq_choose (p : Specializations) (Fn T : CType) :
    InProgram.monoid_traits_.select p Fn T
      = choose (InProgram.has_identity_v_ p Fn T) (decide (Fn = .std_plus T)) := by
  unfold InProgram.monoid_traits_.select
    InProgram.monoid_traits_.hand_written_matches
  rw [in_program_gate]

theorem monoid_traits__no_specializations (Fn T : CType) :
    InProgram.monoid_traits_ no_specializations Fn T = monoid_traits_ Fn T := by
  unfold InProgram.monoid_traits_ monoid_traits_
    InProgram.monoid_traits_.select monoid_traits_.select
    InProgram.monoid_traits_.gated_matches monoid_traits_.gated_matches
    InProgram.has_identity_v__template_id has_identity_v__template_id
    InProgram.has_identity_v_ has_identity_v_
    InProgram.has_identity_.value has_identity_.value
    InProgram.has_identity_.test_identity has_identity_.test_identity
    InProgram.monoid_traits_.probe_gated monoid_traits_.probe_gated
    InProgram.call_value call_value
  simp only [call_wf_no_specializations,
    lookup_no_specializations]
  rfl

theorem wrap_of_in_range (x : Int) (h : in_range 32 x) : wrap 32 x = x := by
  unfold in_range at h
  unfold wrap
  norm_num at h ⊢
  omega

/-! ## The claims -/

/-- C1: for any `argc` and `argv`, `main` writes exactly the line `0 0`
followed by a line terminator and returns status 0; the two numbers are
`monoid_traits<std::plus<int>>::identity()` and
`monoid_traits_<plus_, int>::identity()`, both 0. -/
theorem C1_main_prints_zero_zero (argc : Int) (argv : List String) :
    main argc argv = some ("0 0\n", 0) ∧
    (monoid_traits (.std_plus .int)).map (fun t => to_int t.identity)
      = some (some 0) ∧
    (monoid_traits_ .plus_ .int).map (fun t => to_int t.identity)
      = some (some 0) := by
  exact ⟨rfl, rfl, rfl⟩

/-- C2 (the code at the failing input): `plus_monoid<int>` declares a static
`identity()` returning 0 and the alias `type = int`, yet
`has_identity_v<plus_monoid<int>>` is `false` and
`monoid_traits<plus_monoid<int>>` is the undefined primary template. -/
theorem C2_plus_monoid_int_not_adapted :
    lookup (.plus_monoid .int) .identity = .fn true 0 0 (.fixed .int) 0 ∧
    lookup (.plus_monoid .int) .type = .alias .int ∧
    call_value (.plus_monoid .int) .identity [] = some (.int 0) ∧
    has_identity_v (.plus_monoid .int) = false ∧
    monoid_traits.select (.plus_monoid .int) = .primary ∧
    monoid_traits (.plus_monoid .int) = none := by
  exact ⟨rfl, rfl, rfl, rfl, rfl, rfl⟩

/-- C3: `std::plus<int>` declares neither `identity` nor `type`, the probe
`has_identity_v<std::plus<int>>` is `false` (already its `identity` half is),
and `monoid_traits<std::plus<int>>` is the hand-written specialization, with
`type = int` and `identity() = 0`; for every `T` the hand-written
specialization has `type = T`. -/
theorem C3_std_plus_int_hand_written :
    lookup (.std_plus .int) .identity = .absent ∧
    lookup (.std_plus .int) .type = .absent ∧
    has_identity.test_identity (.std_plus .int) = false ∧
    has_identity_v (.std_plus .int) = false ∧
    monoid_traits.select (.std_plus .int) = .hand_written ∧
    monoid_traits (.std_plus .int) = some ⟨.int, some (.int 0)⟩ ∧
    (∀ T, (monoid_traits (.std_plus T)).map (fun t => t.type) = some T) := by
  exact ⟨rfl, rfl, rfl, rfl, rfl, rfl, fun _ => rfl⟩

/-- C4 as stated fails: it is not the case that
`monoid_traits_<plus_, int>::identity()` is 0 while `plus_` declares no
`identity` member. -/
theorem C4_plus__declares_identity :
    ¬ ((monoid_traits_ .plus_ .int).bind (fun t => t.identity) = some (.int 0) ∧
       lookup .plus_ .identity = .absent) := by
  rintro ⟨_, h⟩
  cases h

/-- C4 amended: `monoid_traits_<plus_, int>::identity()` is 0, and the value
is the operator's own: `plus_` declares the member template `identity<T>()`
(and no `type` alias), the probe finds it, the probe-gated specialization is
the one selected, and its `identity()` returns what `plus_::identity<int>()`
returns. -/
theorem C4_plus__identity_forwarded :
    (monoid_traits_ .plus_ .int).bind (fun t => t.identity) = some (.int 0) ∧
    monoid_traits_ .plus_ .int = some ⟨.int, some (.int 0)⟩ ∧
    lookup .plus_ .identity = .fn true 1 0 .tparam 0 ∧
    lookup .plus_ .type = .absent ∧
    has_identity_v_ .plus_ .int = true ∧
    monoid_traits_.select .plus_ .int = .probe_gated ∧
    (monoid_traits_ .plus_ .int).bind (fun t => t.identity)
      = (call_value .plus_ .identity [.int]).bind (fun v => convert v .int) ∧
    call_value .plus_ .identity [.int] = some (.int 0) := by
  exact ⟨rfl, rfl, rfl, rfl, rfl, rfl, rfl, rfl⟩

/-- C5 (the code): `has_identity<T>::value` is the conjunction of the two
member probes and is always defined, but the `type` probe is `false` for every
type, so the value is `false` for every type; at `plus_monoid<int>`, which
declares both members, it is `false`. -/
theorem C5_has_identity_never_true :
    (∀ T, has_identity.value T
        = (has_identity.test_identity T && has_identity.test_type T)) ∧
    (∀ T, has_identity.test_identity T = declares_static_identity T) ∧
    (∀ T, has_identity.test_type T = false) ∧
    (∀ T, has_identity.value T = false) ∧
    declares_static_identity (.plus_monoid .int) = true ∧
    declares_type_alias (.plus_monoid .int) = true ∧
    has_identity.value (.plus_monoid .int) = false := by
  refine ⟨fun _ => rfl, fun T => ?_, test_type_false, has_identity_v_false,
    rfl, rfl, rfl⟩
  unfold has_identity.test_identity call_wf declares_static_identity
  rw [ite_true_false]
  cases lookup T .identity <;> rfl

/-- C7 as stated fails: for `void_identity`, whose member template `identity`
returns `void`, the probe `has_identity_<void_identity, int>::value` is `true`
although the member does not produce a value of type `int`. -/
theorem C7_return_type_not_checked :
    ¬ (has_identity_.value void_identity .int = true ↔
       declares_identity_producing void_identity .int = true) := by
  decide

/-- C7 amended: for every `Fn` and `T`, `has_identity_<Fn, T>::value` is `true`
if and only if `Fn` declares a template-parameterized, zero-argument static
member `identity` that, instantiated with `T`, is invocable, whatever the call
produces; otherwise it is `false`. -/
theorem C7_has_identity__iff_invocable (Fn T : CType) :
    has_identity_.value Fn T = declares_identity_invocable Fn ∧
    (has_identity_.value Fn T = true ↔ declares_identity_invocable Fn = true) ∧
    (declares_identity_producing Fn T = true →
      has_identity_.value Fn T = true) := by
  have h : has_identity_.value Fn T = declares_identity_invocable Fn := by
    unfold has_identity_.value has_identity_.test_identity call_wf
      declares_identity_invocable
    rw [ite_true_false]
    cases lookup Fn .identity <;> rfl
  refine ⟨h, by rw [h], ?_⟩
  rw [h]
  unfold declares_identity_producing declares_identity_invocable
  cases lookup Fn .identity <;> simp
  intro a b c _
  exact ⟨⟨a, b⟩, c⟩

/-- C7 amended, at `plus_` with operand `int`: the member template of `plus_`
meets the specification's wording and the probe is `true`. -/
theorem C7_has_identity__iff_invocable_witness :
    declares_identity_producing .plus_ .int = true ∧
    has_identity_.value .plus_ .int = true :=
  ⟨rfl, (C7_has_identity__iff_invocable .plus_ .int).2.2 rfl⟩

/-- C8 as stated fails: in the program `plus_my_t`, the pair
`(std::plus<my_t>, my_t)` satisfies the probe and matches the hand-written
pattern, yet `monoid_traits_<std::plus<my_t>, my_t>` does not resolve: the two
partial specializations both match and the choice is ambiguous. -/
theorem C8_both_match_ambiguous :
    InProgram.has_identity_v_ plus_my_t (.std_plus (.class_ my_t)) (.class_ my_t)
      = true ∧
    InProgram.monoid_traits_.hand_written_matches
      (.std_plus (.class_ my_t)) (.class_ my_t) = true ∧
    InProgram.monoid_traits_.select plus_my_t
      (.std_plus (.class_ my_t)) (.class_ my_t) = .ambiguous ∧
    ¬ ((InProgram.has_identity_v_ plus_my_t
          (.std_plus (.class_ my_t)) (.class_ my_t) = true ∨
        CType.std_plus (.class_ my_t) = .std_plus (.class_ my_t)) →
       (InProgram.monoid_traits_ plus_my_t
          (.std_plus (.class_ my_t)) (.class_ my_t)).isSome = true) := by
  decide

/-- C8 amended.  `monoid_traits<T>` has only the undefined primary template
when `T` has neither a satisfying probe result nor the form `std::plus<A>`,
and resolves to the hand-written specialization when `T` is `std::plus<A>`.
In every program, `monoid_traits_<Fn, T>` resolves exactly when one and only
one of the two holds: the probe `has_identity_v_<Fn, T>` is `true`, or `Fn` is
`std::plus<T>`.  With neither, only the undefined primary template is left;
with both, the choice is ambiguous; in both cases resolution fails.
`monoid_traits_<std::plus<void>, int>` satisfies neither and does not
resolve. -/
theorem C8_resolution_exactly_one (p : Specializations) (Fn T : CType) :
    ((has_identity_v T = false ∧ ∀ A, T ≠ .std_plus A) →
      monoid_traits.select T = .primary ∧ monoid_traits T = none) ∧
    (∀ A, monoid_traits.select (.std_plus A) = .hand_written ∧
      monoid_traits (.std_plus A) = some ⟨A, construct A 0⟩) ∧
    ((InProgram.has_identity_v_ p Fn T = false ∧ Fn ≠ .std_plus T) →
      InProgram.monoid_traits_.select p Fn T = .primary ∧
      InProgram.monoid_traits_ p Fn T = none) ∧
    ((InProgram.has_identity_v_ p Fn T = true ∧ Fn ≠ .std_plus T) →
      InProgram.monoid_traits_.select p Fn T = .probe_gated ∧
      InProgram.monoid_traits_ p Fn T
        = some (InProgram.monoid_traits_.probe_gated p Fn T)) ∧
    ((InProgram.has_identity_v_ p Fn T = false ∧ Fn = .std_plus T) →
      InProgram.monoid_traits_.select p Fn T = .hand_written ∧
      InProgram.monoid_traits_ p Fn T = some ⟨T, construct T 0⟩) ∧
    ((InProgram.has_identity_v_ p Fn T = true ∧ Fn = .std_plus T) →
      InProgram.monoid_traits_.select p Fn T = .ambiguous ∧
      InProgram.monoid_traits_ p Fn T = none) ∧
    ((InProgram.monoid_traits_ p Fn T).isSome = true ↔
      (InProgram.has_identity_v_ p Fn T = true ∧ Fn ≠ .std_plus T) ∨
      (InProgram.has_identity_v_ p Fn T = false ∧ Fn = .std_plus T)) ∧
    InProgram.monoid_traits_ no_specializations Fn T = monoid_traits_ Fn T ∧
    InProgram.has_identity_v_ p plus_nice .int = false ∧
    plus_nice ≠ .std_plus .int ∧
    InProgram.monoid_traits_ p plus_nice .int = none ∧
    monoid_traits_ plus_nice .int = none := by
  have hsel := in_program_select_eq_choose p Fn T
  refine ⟨?_, fun A => ⟨rfl, rfl⟩, ?_, ?_, ?_, ?_, ?_,
    monoid_traits__no_specializations Fn T, rfl, by decide, rfl, rfl⟩
  · rintro ⟨_, hT⟩
    have hs : monoid_traits.select T = .primary := by
      unfold monoid_traits.select
      rw [monoid_traits_gate_closed]
      cases T <;> first | rfl | exact absurd rfl (hT _)
    exact ⟨hs, by unfold monoid_traits; rw [hs]⟩
  · rintro ⟨hp, hne⟩
    have hs : InProgram.monoid_traits_.select p Fn T = .primary := by
      rw [hsel, hp, decide_eq_false hne]; rfl
    exact ⟨hs, by unfold InProgram.monoid_traits_; rw [hs]⟩
  · rintro ⟨hp, hne⟩
    have hs : InProgram.monoid_traits_.select p Fn T = .probe_gated := by
      rw [hsel, hp, decide_eq_false hne]; rfl
    exact ⟨hs, by unfold InProgram.monoid_traits_; rw [hs]⟩
  · rintro ⟨hp, he⟩
    have hs : InProgram.monoid_traits_.select p Fn T = .hand_written := by
      rw [hsel, hp, decide_eq_true he]; rfl
    exact ⟨hs, by unfold InProgram.monoid_traits_; rw [hs]; rfl⟩
  · rintro ⟨hp, he⟩
    have hs : InProgram.monoid_traits_.select p Fn T = .ambiguous := by
      rw [hsel, hp, decide_eq_true he]; rfl
    exact ⟨hs, by unfold InProgram.monoid_traits_; rw [hs]⟩
  · unfold InProgram.monoid_traits_
    rw [hsel]
    by_cases he : Fn = .std_plus T <;>
      cases hp : InProgram.has_identity_v_ p Fn T <;>
      simp [choose, he]

/-- C8 amended, at one input for each case: `plus_monoid<int>` for
`monoid_traits`, and for `monoid_traits_` the pairs `(std::plus<void>, int)`
(neither), `(plus_, int)` (probe only), `(std::plus<int>, int)` (pattern only)
and, in the program `plus_my_t`, `(std::plus<my_t>, my_t)` (both). -/
theorem C8_resolution_exactly_one_witness :
    (has_identity_v (.plus_monoid .int) = false ∧
      monoid_traits (.plus_monoid .int) = none) ∧
    (InProgram.has_identity_v_ no_specializations plus_nice .int = false ∧
      plus_nice ≠ .std_plus .int ∧
      InProgram.monoid_traits_ no_specializations plus_nice .int = none) ∧
    (InProgram.has_identity_v_ no_specializations .plus_ .int = true ∧
      InProgram.monoid_traits_.select no_specializations .plus_ .int
        = .probe_gated) ∧
    (InProgram.has_identity_v_ no_specializations (.std_plus .int) .int = false ∧
      InProgram.monoid_traits_ no_specializations (.std_plus .int) .int
        = some ⟨.int, some (.int 0)⟩) ∧
    (InProgram.has_identity_v_ plus_my_t (.std_plus (.class_ my_t)) (.class_ my_t)
        = true ∧
      InProgram.monoid_traits_ plus_my_t (.std_plus (.class_ my_t)) (.class_ my_t)
        = none) :=
  ⟨⟨rfl, ((C8_resolution_exactly_one no_specializations .plus_ (.plus_monoid .int)).1
      ⟨rfl, fun _ h => CType.noConfusion h⟩).2⟩,
   ⟨rfl, by decide,
    ((C8_resolution_exactly_one no_specializations plus_nice .int).2.2.1
      ⟨rfl, by decide⟩).2⟩,
   ⟨rfl,
    ((C8_resolution_exactly_one no_specializations .plus_ .int).2.2.2.1
      ⟨rfl, by decide⟩).1⟩,
   ⟨rfl,
    ((C8_resolution_exactly_one no_specializations (.std_plus .int) .int).2.2.2.2.1
      ⟨rfl, rfl⟩).2⟩,
   ⟨by decide,
    ((C8_resolution_exactly_one plus_my_t (.std_plus (.class_ my_t))
        (.class_ my_t)).2.2.2.2.2.1 ⟨by decide, rfl⟩).2⟩⟩

/-- C9: for no type do the probe-gated and the hand-written specialization of
`monoid_traits` both match, for no pair of operator and operand do the
probe-gated and the hand-written specialization of `monoid_traits_` both
match, and no selection is ambiguous; `std::plus<T>` declares neither an
`identity` nor a `type` member for the probes to find. -/
theorem C9_selection_unambiguous :
    (∀ T, ¬ (monoid_traits.gated_matches T = true ∧
             monoid_traits.hand_written_matches T = true)) ∧
    (∀ Fn T, ¬ (monoid_traits_.gated_matches Fn T = true ∧
                monoid_traits_.hand_written_matches Fn T = true)) ∧
    (∀ T, monoid_traits.select T ≠ .ambiguous) ∧
    (∀ Fn T, monoid_traits_.select Fn T ≠ .ambiguous) ∧
    (∀ A name, lookup (.std_plus A) name = .absent) := by
  refine ⟨fun T h => ?_, monoid_traits__never_both, fun T => ?_,
    fun Fn T => ?_, fun _ _ => rfl⟩
  · rw [monoid_traits_gate_closed] at h
    exact Bool.false_ne_true h.1
  · unfold monoid_traits.select
    rw [monoid_traits_gate_closed]
    cases monoid_traits.hand_written_matches T <;> simp [choose]
  · have hb := monoid_traits__never_both Fn T
    unfold monoid_traits_.select
    cases hg : monoid_traits_.gated_matches Fn T <;>
      cases hh : monoid_traits_.hand_written_matches Fn T <;>
      simp_all [choose]

/-- C10: for every `int` value `x`, with addition reduced modulo 2^32,
`plus_monoid<int>::identity()` is 0 and is a left and right identity of
`plus_monoid<int>::operator()`, and
`monoid_traits<std::plus<int>>::identity()` is 0 and is a left and right
identity of `std::plus<int>::operator()`. -/
theorem C10_identity_law (x : Int) (hx : in_range 32 x) :
    (∃ e, call_value (.plus_monoid .int) .identity [] = some (.int e) ∧
          plus_monoid.call .int e x = x ∧ plus_monoid.call .int x e = x) ∧
    (∃ e, (monoid_traits (.std_plus .int)).bind (fun t => t.identity)
            = some (.int e) ∧
          std_plus.call .int e x = x ∧ std_plus.call .int x e = x) := by
  have h0 : Arith.add .int 0 x = x := by
    unfold Arith.add Arith.bits
    rw [zero_add]
    exact wrap_of_in_range x hx
  have h1 : Arith.add .int x 0 = x := by
    unfold Arith.add Arith.bits
    rw [add_zero]
    exact wrap_of_in_range x hx
  exact ⟨⟨0, rfl, h0, h1⟩, ⟨0, rfl, h0, h1⟩⟩

/-- C10 at `x = -2147483648`, the least `int`. -/
theorem C10_identity_law_witness :
    in_range 32 (-2147483648) ∧
    plus_monoid.call .int 0 (-2147483648) = -2147483648 ∧
    std_plus.call .int (-2147483648) 0 = -2147483648 := by
  have hx : in_range 32 (-2147483648) := by decide
  obtain ⟨⟨e, he, hl, _⟩, ⟨e2, he2, _, hr⟩⟩ := C10_identity_law (-2147483648) hx
  have e0 : e = 0 := by
    have : some (Value.int 0) = some (Value.int e) := he
    cases this
    rfl
  have e20 : e2 = 0 := by
    have : some (Value.int 0) = some (Value.int e2) := he2
    cases this
    rfl
  subst e0
  subst e20
  exact ⟨hx, hl, hr⟩

end MonoidTraits
